import Mathlib

/-!
Shallow embedding of the `cachet` execution module (src/cachet.py): a thin
client for the Cachet status-page REST API.  Python values that flow through
the module (JSON-like data, keyword arguments, configuration entries) are
modelled by the inductive `Value`; Python dicts by ordered association lists;
raised Python exceptions by `Except PyError`; the HTTP transport by an
explicit oracle function, with every issued request recorded in a log so that
"no network call is made" is provable.
-/

/-- A Python/JSON-like value as used by the module: `None`, booleans,
integers, strings, lists and dicts. -/
inductive Value where
  | vNull
  | vBool (b : Bool)
  | vInt (n : Int)
  | vStr (s : String)
  | vList (xs : List Value)
  | vDict (xs : List (String × Value))

open Value

/-- Python truthiness: `None`, `False`, `0`, `''`, `[]`, `{}` are falsy. -/
def Value.truthy : Value → Bool
  | vNull => false
  | vBool b => b
  | vInt n => n != 0
  | vStr s => s != ""
  | vList xs => !xs.isEmpty
  | vDict xs => !xs.isEmpty

/-- Model of the Python builtin `int(...)` as used by the status checks:
integers pass through, booleans coerce to 0/1, strings are parsed, and
anything else (including `None`) fails. -/
def Value.toInt? : Value → Option Int
  | vInt n => some n
  | vBool b => some (if b then 1 else 0)
  | vStr s => s.toInt?
  | _ => none

/-- Python `a or b`: returns `a` when truthy, else `b`. -/
def pyOr (a b : Value) : Value := if a.truthy then a else b

/-- String content of a `Value`; the module only ever joins string URLs. -/
def Value.asStr : Value → String
  | vStr s => s
  | _ => ""

/-- One entry of `CACHET_PARAMS_DEFINITION`: the `mandatory` flag and the
`default` key.  `default = some vNull` models a present `'default': None`
key, `default = none` models an absent `'default'` key (the Python code
distinguishes them via `'default' in config`). -/
structure FieldSpec where
  mandatory : Bool
  default : Option Value := none

/-- An operation schema: ordered field name / spec pairs, in source order. -/
abbrev Schema := List (String × FieldSpec)

/-- The static schema registry `CACHET_PARAMS_DEFINITION` from the source,
with fields listed in the source's textual order. -/
def CACHET_PARAMS_DEFINITION : List (String × List (String × Schema)) :=
  [ ("components",
      [ ("add",
          [ ("name", ⟨true, none⟩),
            ("status", ⟨true, none⟩),
            ("description", ⟨false, some vNull⟩),
            ("link", ⟨false, some vNull⟩),
            ("order", ⟨false, some (vInt 0)⟩),
            ("group_id", ⟨false, some vNull⟩),
            ("enabled", ⟨false, some (vBool true)⟩) ]),
        ("update",
          [ ("name", ⟨false, none⟩),
            ("status", ⟨false, none⟩),
            ("link", ⟨false, some vNull⟩),
            ("order", ⟨false, some vNull⟩),
            ("group_id", ⟨false, some vNull⟩) ]) ]),
    ("components.groups",
      [ ("add",
          [ ("name", ⟨true, none⟩),
            ("order", ⟨false, some (vInt 0)⟩) ]),
        ("update",
          [ ("name", ⟨false, some vNull⟩),
            ("order", ⟨false, some vNull⟩) ]) ]),
    ("incidents",
      [ ("add",
          [ ("name", ⟨true, none⟩),
            ("message", ⟨true, none⟩),
            ("status", ⟨true, none⟩),
            ("visible", ⟨true, some (vInt 1)⟩),
            ("component_id", ⟨false, some vNull⟩),
            ("component_status", ⟨false, some vNull⟩),
            ("notify", ⟨false, some (vBool false)⟩) ]),
        ("update",
          [ ("name", ⟨false, none⟩),
            ("message", ⟨false, none⟩),
            ("status", ⟨false, none⟩),
            ("visible", ⟨false, some (vInt 1)⟩),
            ("component_id", ⟨false, none⟩),
            ("notify", ⟨false, none⟩) ]) ]),
    ("metrics",
      [ ("add",
          [ ("name", ⟨true, none⟩),
            ("suffix", ⟨true, none⟩),
            ("description", ⟨true, none⟩),
            ("default_value", ⟨true, some (vInt 0)⟩),
            ("display_chart", ⟨false, some (vInt 1)⟩) ]) ]),
    ("metrics.points",
      [ ("add",
          [ ("value", ⟨true, none⟩) ]) ]) ]

/-- Outcome of `_build_args`: the `{'res': False, 'message': ...}` dict or
the `{'res': True, 'data': args}` dict. -/
inductive BuildResult where
  | failure (message : String)
  | success (data : List (String × Value))

/-- The field loop of `_build_args`: walks the schema in order, copying
supplied values, substituting defaults for absent mandatory fields,
materialising truthy defaults for absent optional fields, and failing on the
first absent mandatory field without a default.  `acc` is the `args` dict
built so far (Python dict insertion order = append). -/
def buildFields : Schema → List (String × Value) → List (String × Value) → BuildResult
  | [], _, acc => .success acc
  | (k, config) :: rest, kwargs, acc =>
    if config.mandatory then
      match kwargs.lookup k with
      | none =>
        match config.default with
        | some d => buildFields rest kwargs (acc ++ [(k, d)])
        | none => .failure ("Mandatory params " ++ k ++ " is missing")
      | some v => buildFields rest kwargs (acc ++ [(k, v)])
    else
      match kwargs.lookup k with
      | some v => buildFields rest kwargs (acc ++ [(k, v)])
      | none =>
        match config.default with
        | some d =>
          if d.truthy then buildFields rest kwargs (acc ++ [(k, d)]) else
            buildFields rest kwargs acc
        | none => buildFields rest kwargs acc

/-- Python exceptions raised by the module. -/
inductive PyError where
  | exception (msg : String)
  | keyError (key : String)
  | nameError (name : String)
  | valueError (msg : String)
  | typeError (msg : String)
  deriving Repr, DecidableEq

/-- `_build_args(obj, method, **kwargs)`: looks up the schema (raising for an
unknown resource or operation) and runs the field loop. -/
def buildArgs (obj method : String) (kwargs : List (String × Value)) :
    Except PyError BuildResult :=
  match CACHET_PARAMS_DEFINITION.lookup obj with
  | none => .error (.exception (obj ++ " not in CACHET_PARAMS_DEFINITION"))
  | some methods =>
    match methods.lookup method with
    | none =>
      .error (.exception (method ++ " not in CACHET_PARAMS_DEFINITION[" ++ obj ++ "]"))
    | some schema => .ok (buildFields schema kwargs [])

/-- The schema the registry declares for `(obj, method)`, when any. -/
def schemaFor (obj method : String) : Option Schema :=
  (CACHET_PARAMS_DEFINITION.lookup obj).bind (fun ms => ms.lookup method)

/-- The names of the mandatory fields of a schema, in schema order. -/
def mandatoryFields (schema : Schema) : List String :=
  (schema.filter (fun p => p.2.mandatory)).map (fun p => p.1)

/-- Spec-side prediction (from the spec's words, for comparison with
`buildFields`): supplying exactly the mandatory fields yields the mandatory
fields with their supplied values plus every optional field whose declared
default is truthy. -/
def specExpectedArgs (schema : Schema) (f : String → Value) : List (String × Value) :=
  schema.filterMap (fun p =>
    if p.2.mandatory then some (p.1, f p.1)
    else
      match p.2.default with
      | some d => if d.truthy then some (p.1, d) else none
      | none => none)

/-- The first field (in schema order) that is mandatory, absent from the
supplied arguments, and has no declared default. -/
def firstMissingMandatory (schema : Schema) (kwargs : List (String × Value)) :
    Option String :=
  (schema.find? (fun p =>
    p.2.mandatory && (kwargs.lookup p.1).isNone && p.2.default.isNone)).map (fun p => p.1)

/-- Closed form of the argument set `buildFields` produces when no mandatory
field is missing: supplied values verbatim, defaults for absent mandatory
fields, truthy defaults for absent optional fields. -/
def builtList (schema : Schema) (kwargs : List (String × Value)) :
    List (String × Value) :=
  schema.filterMap (fun p =>
    if p.2.mandatory then
      match kwargs.lookup p.1 with
      | some v => some (p.1, v)
      | none => p.2.default.map (fun d => (p.1, d))
    else
      match kwargs.lookup p.1 with
      | some v => some (p.1, v)
      | none =>
        match p.2.default with
        | some d => if d.truthy then some (p.1, d) else none
        | none => none)

/-- `_check_component_status`: converts to `int` (a conversion failure raises)
and raises unless the value lies in `[1, 4]`. -/
def check_component_status (data : Value) : Except PyError Unit :=
  match data.toInt? with
  | none => .error (.valueError "invalid literal for int()")
  | some status =>
    if status < 1 ∨ status > 4 then
      .error (.exception ("Wrong component status " ++ toString status ++
        ", must be between 1 and 4"))
    else .ok ()

/-- `_check_incident_status`: converts to `int` and raises unless the value
lies in `[0, 4]`. -/
def check_incident_status (data : Value) : Except PyError Unit :=
  match data.toInt? with
  | none => .error (.valueError "invalid literal for int()")
  | some status =>
    if status < 0 ∨ status > 4 then
      .error (.exception ("Wrong incident status " ++ toString status ++
        ", must be between 0 and 4"))
    else .ok ()

/-- Python `'%d' % v` as used for the path ids: formats integers (booleans
coerce), raises `TypeError` otherwise. -/
def formatD : Value → Except PyError String
  | vInt n => .ok (toString n)
  | vBool b => .ok (if b then "1" else "0")
  | _ => .error (.typeError "%d format: a number is required")

/-- Splits a URL's characters at the first `://`, when present. -/
def splitScheme : List Char → Option (List Char × List Char)
  | [] => none
  | ':' :: '/' :: '/' :: rest => some ([], rest)
  | c :: cs => (splitScheme cs).map (fun p => (c :: p.1, p.2))

/-- Everything up to and including the last `/`. -/
def keepThroughLastSlash (cs : List Char) : List Char :=
  (cs.reverse.dropWhile (fun c => c ≠ '/')).reverse

/-- Model of `urllib.parse.urljoin` for the shapes the module uses: an
absolute path replaces the base URL's path, a relative segment replaces
everything after the base path's last slash. -/
def urljoin (base url : String) : String :=
  match url.data with
  | '/' :: _ =>
    match splitScheme base.data with
    | some (scheme, rest) =>
      String.mk (scheme ++ (':' :: '/' :: '/' :: rest.takeWhile (fun c => c ≠ '/')) ++
        url.data)
    | none => url
  | _ => String.mk (keepThroughLastSlash base.data ++ url.data)

/-- One HTTP request as handed to `salt.utils.http.query`. -/
structure HttpRequest where
  url : String
  method : String
  params : List (String × Value)
  data : Option Value
  header_dict : List (String × Value)

/-- The transport's envelope: the numeric HTTP status, the decoded body
(`result['dict']`), and an optional top-level `error` entry of the envelope
itself (`'error' in result`). -/
structure HttpResponse where
  status : Nat
  dict : List (String × Value)
  error : Option Value := none

/-- A value returned by the module's operations: the usual
`{'res': bool, 'message': value}` dict, or the bare Python `True` that
`_query` returns for HTTP 204. -/
inductive RetValue where
  | ret (res : Bool) (message : Value)
  | pyTrue

/-- `_query(function, api_url, api_token, auth, args, method, header_dict,
data)`.  The external collaborators are explicit: `cfg` models
`__salt__['config.get']` and `transport` models `salt.utils.http.query`.
Returns the Python result (or raised exception) together with the list of
HTTP requests actually issued. -/
def query (function : String) (cfg : String → Value)
    (api_url api_token : Value) (auth : Bool)
    (args : Option (List (String × Value))) (method : String)
    (header_dict : Option (List (String × Value)))
    (data : Option Value)
    (transport : HttpRequest → HttpResponse) :
    Except PyError RetValue × List HttpRequest :=
  let api_url := if api_url.truthy then api_url
    else pyOr (cfg "cachet.api_url") (cfg "cachet:api_url")
  if ¬ api_url.truthy then
    (.ok (.ret false (vStr "No Cachet api key found.")), [])
  else
    let api_token := if auth ∧ ¬ api_token.truthy then
        pyOr (cfg "cachet.api_token") (cfg "cachet:api_token")
      else api_token
    if auth ∧ ¬ api_token.truthy then
      (.ok (.ret false (vStr "No Cachet api key found.")), [])
    else
      let base_url := urljoin api_url.asStr "/api/v1/"
      let url := urljoin base_url function
      let query_params := args.getD []
      let header_dict := header_dict.getD []
      let header_dict := if auth ∧ (header_dict.lookup "X-Cachet-Token").isNone then
          header_dict ++ [("X-Cachet-Token", api_token)]
        else header_dict
      let req : HttpRequest := ⟨url, method, query_params, data, header_dict⟩
      let result := transport req
      let res : Except PyError RetValue :=
        if result.status = 200 then
          match result.dict.lookup "error" with
          | some e => .ok (.ret false e)
          | none => .ok (.ret true ((result.dict.lookup "data").getD vNull))
        else if result.status = 204 then
          .ok .pyTrue
        else
          match result.error with
          | some e => .ok (.ret false e)
          | none => .error (.nameError "_result")
      (res, [req])

/-- `add_component(api_url, api_token, **kwargs)`: builds the argument set,
checks the component status, then POSTs to `components` with auth. -/
def add_component (api_url api_token : Value) (kwargs : List (String × Value))
    (cfg : String → Value) (transport : HttpRequest → HttpResponse) :
    Except PyError RetValue × List HttpRequest :=
  match buildArgs "components" "add" kwargs with
  | .error e => (.error e, [])
  | .ok (.failure msg) => (.ok (.ret false (vStr msg)), [])
  | .ok (.success args) =>
    match args.lookup "status" with
    | none => (.error (.keyError "status"), [])
    | some status =>
      match check_component_status status with
      | .error e => (.error e, [])
      | .ok () =>
        query "components" cfg api_url api_token true (some args) "POST" none none
          transport

/-- `get_components(id, api_url, api_token)`: GET on `components` or
`components/%d`, no auth. -/
def get_components (id api_url api_token : Value) (cfg : String → Value)
    (transport : HttpRequest → HttpResponse) :
    Except PyError RetValue × List HttpRequest :=
  if id.truthy then
    match formatD id with
    | .error e => (.error e, [])
    | .ok s =>
      query ("components/" ++ s) cfg api_url api_token false none "GET" none none
        transport
  else
    query "components" cfg api_url api_token false none "GET" none none transport

/-- `update_component(id, api_url, api_token, **kwargs)`: builds the argument
set, then reads `args['status']` without a guard (a `KeyError` when the key
was never materialised), checks it when truthy, and PUTs with auth. -/
def update_component (id : Int) (api_url api_token : Value)
    (kwargs : List (String × Value)) (cfg : String → Value)
    (transport : HttpRequest → HttpResponse) :
    Except PyError RetValue × List HttpRequest :=
  match buildArgs "components" "update" kwargs with
  | .error e => (.error e, [])
  | .ok (.failure msg) => (.ok (.ret false (vStr msg)), [])
  | .ok (.success args) =>
    match args.lookup "status" with
    | none => (.error (.keyError "status"), [])
    | some status =>
      let proceed : Except PyError RetValue × List HttpRequest :=
        query ("components/" ++ toString id) cfg api_url api_token true (some args)
          "PUT" none none transport
      if status.truthy then
        match check_component_status status with
        | .error e => (.error e, [])
        | .ok () => proceed
      else proceed

/-- `update_incident(id, api_url, api_token, **kwargs)`: same shape as
`update_component`, with the incident schema and status check. -/
def update_incident (id : Int) (api_url api_token : Value)
    (kwargs : List (String × Value)) (cfg : String → Value)
    (transport : HttpRequest → HttpResponse) :
    Except PyError RetValue × List HttpRequest :=
  match buildArgs "incidents" "update" kwargs with
  | .error e => (.error e, [])
  | .ok (.failure msg) => (.ok (.ret false (vStr msg)), [])
  | .ok (.success args) =>
    match args.lookup "status" with
    | none => (.error (.keyError "status"), [])
    | some status =>
      let proceed : Except PyError RetValue × List HttpRequest :=
        query ("incidents/" ++ toString id) cfg api_url api_token true (some args)
          "PUT" none none transport
      if status.truthy then
        match check_incident_status status with
        | .error e => (.error e, [])
        | .ok () => proceed
      else proceed

/-- `delete_metric_point(metric_id, id, api_url, api_token)`: builds the path
`metrics/%d/points/%d`, then evaluates the call
`_query(function, ..., args=args, method='DELETE')`.  The name `args` is
never defined in that function (nor at module level), so evaluating the call
arguments raises `NameError` before `_query` can run; no request is issued. -/
def delete_metric_point (metric_id id : Int) (api_url api_token : Value)
    (cfg : String → Value) (transport : HttpRequest → HttpResponse) :
    Except PyError RetValue × List HttpRequest :=
  let function := "metrics/" ++ toString metric_id ++ "/points/" ++ toString id
  let _ := (function, api_url, api_token, cfg, transport)
  (.error (.nameError "args"), [])

/-- The configuration used by the concrete scenarios: base URL
`https://status.example.com` and token `tok-secret`, nothing else set. -/
def cfgStd : String → Value := fun k =>
  if k = "cachet.api_url" then vStr "https://status.example.com"
  else if k = "cachet.api_token" then vStr "tok-secret"
  else vNull

/-! ### Helper lemmas -/

theorem lookup_append_none {k k' : String} {v : Value} {l : List (String × Value)}
    (h : l.lookup k = none) (hk : (k == k') = false) :
    (l ++ [(k', v)]).lookup k = none := by
  induction l with
  | nil => simp [List.lookup, hk]
  | cons p t ih =>
    by_cases hp : (k == p.1) = true
    · simp [List.lookup, hp] at h
    · simp only [List.cons_append, List.lookup, Bool.not_eq_true] at h ⊢
      obtain ⟨a, b⟩ := p
      simp only [Bool.not_eq_true] at hp
      rw [hp] at h ⊢
      exact ih h

theorem find?_cons_true {α : Type} (f : α → Bool) (a : α) (l : List α) (h : f a = true) :
    (a :: l).find? f = some a := by
  simp [List.find?_cons, h]

theorem find?_cons_false {α : Type} (f : α → Bool) (a : α) (l : List α) (h : f a = false) :
    (a :: l).find? f = l.find? f := by
  simp [List.find?_cons, h]

theorem buildArgs_schemaFor {obj m : String} {schema : Schema}
    (h : schemaFor obj m = some schema) (kwargs : List (String × Value)) :
    buildArgs obj m kwargs = .ok (buildFields schema kwargs []) := by
  unfold schemaFor at h
  unfold buildArgs
  cases h1 : CACHET_PARAMS_DEFINITION.lookup obj with
  | none => rw [h1] at h; simp at h
  | some ms =>
    rw [h1] at h
    replace h : List.lookup m ms = some schema := h
    cases h2 : ms.lookup m with
    | none => rw [h2] at h; simp at h
    | some s =>
      rw [h2] at h
      cases h
      simp [h2]

theorem buildFields_first_missing :
    ∀ (schema : Schema) (kwargs : List (String × Value)) (k : String),
      firstMissingMandatory schema kwargs = some k →
      ∀ acc, buildFields schema kwargs acc =
        .failure ("Mandatory params " ++ k ++ " is missing") := by
  intro schema kwargs
  induction schema with
  | nil => intro k h _; simp [firstMissingMandatory] at h
  | cons p rest ih =>
    obtain ⟨k', spec⟩ := p
    intro k h acc
    simp only [firstMissingMandatory] at h
    cases hpred : (spec.mandatory && (kwargs.lookup k').isNone && spec.default.isNone) with
    | true =>
      rw [find?_cons_true
        (fun q => q.2.mandatory && (kwargs.lookup q.1).isNone && q.2.default.isNone)
        (k', spec) rest hpred] at h
      simp only [Option.map_some', Option.some.injEq] at h
      subst h
      simp only [Bool.and_eq_true, Option.isNone_iff_eq_none] at hpred
      obtain ⟨⟨hm, hl⟩, hd⟩ := hpred
      simp only [buildFields, hm, if_true, hl, hd]
    | false =>
      rw [find?_cons_false
        (fun q => q.2.mandatory && (kwargs.lookup q.1).isNone && q.2.default.isNone)
        (k', spec) rest hpred] at h
      have hr : ∀ acc, buildFields rest kwargs acc =
          .failure ("Mandatory params " ++ k ++ " is missing") := ih k h
      cases hm : spec.mandatory with
      | true =>
        cases hl : kwargs.lookup k' with
        | some v => simp only [buildFields, hm, if_true, hl]; exact hr _
        | none =>
          cases hd : spec.default with
          | some d => simp only [buildFields, hm, if_true, hl, hd]; exact hr _
          | none =>
            exfalso
            rw [hm, hl, hd] at hpred
            simp at hpred
      | false =>
        cases hl : kwargs.lookup k' with
        | some v => simp only [buildFields, hm, Bool.false_eq_true, if_false, hl]; exact hr _
        | none =>
          cases hd : spec.default with
          | none => simp only [buildFields, hm, Bool.false_eq_true, if_false, hl, hd]; exact hr _
          | some d =>
            simp only [buildFields, hm, Bool.false_eq_true, if_false, hl, hd]
            cases ht : d.truthy with
            | true => simp only [ht, if_true]; exact hr _
            | false => simp only [ht, Bool.false_eq_true, if_false]; exact hr _

theorem buildFields_no_missing :
    ∀ (schema : Schema) (kwargs : List (String × Value)),
      firstMissingMandatory schema kwargs = none →
      ∀ acc, buildFields schema kwargs acc = .success (acc ++ builtList schema kwargs) := by
  intro schema kwargs
  induction schema with
  | nil => intro _ acc; simp [buildFields, builtList]
  | cons p rest ih =>
    obtain ⟨k', spec⟩ := p
    intro h acc
    simp only [firstMissingMandatory] at h
    cases hpred : (spec.mandatory && (kwargs.lookup k').isNone && spec.default.isNone) with
    | true =>
      rw [find?_cons_true
        (fun q => q.2.mandatory && (kwargs.lookup q.1).isNone && q.2.default.isNone)
        (k', spec) rest hpred] at h
      simp at h
    | false =>
      rw [find?_cons_false
        (fun q => q.2.mandatory && (kwargs.lookup q.1).isNone && q.2.default.isNone)
        (k', spec) rest hpred] at h
      have hr : ∀ acc, buildFields rest kwargs acc =
          .success (acc ++ builtList rest kwargs) := ih h
      cases hm : spec.mandatory with
      | true =>
        cases hl : kwargs.lookup k' with
        | some v =>
          simp only [buildFields, hm, if_true, hl, builtList, List.filterMap_cons]
          rw [hr]
          simp [builtList]
        | none =>
          cases hd : spec.default with
          | some d =>
            simp only [buildFields, hm, if_true, hl, hd, builtList, List.filterMap_cons,
              Option.map_some']
            rw [hr]
            simp [builtList]
          | none =>
            exfalso
            rw [hm, hl, hd] at hpred
            simp at hpred
      | false =>
        cases hl : kwargs.lookup k' with
        | some v =>
          simp only [buildFields, hm, Bool.false_eq_true, if_false, hl, builtList,
            List.filterMap_cons]
          rw [hr]
          simp [builtList]
        | none =>
          cases hd : spec.default with
          | none =>
            simp only [buildFields, hm, Bool.false_eq_true, if_false, hl, hd, builtList,
              List.filterMap_cons]
            exact hr _
          | some d =>
            cases ht : d.truthy with
            | true =>
              simp only [buildFields, hm, Bool.false_eq_true, if_false, hl, hd, ht, if_true,
                builtList, List.filterMap_cons]
              rw [hr]
              simp [builtList]
            | false =>
              simp only [buildFields, hm, Bool.false_eq_true, if_false, hl, hd, ht,
                builtList, List.filterMap_cons]
              exact hr _

theorem lookup_builtList_none :
    ∀ (schema : Schema) (k : String) (kwargs : List (String × Value)),
      kwargs.lookup k = none →
      (∀ p ∈ schema, p.1 = k → p.2.mandatory = false ∧ p.2.default = none) →
      (builtList schema kwargs).lookup k = none := by
  intro schema k kwargs hk
  induction schema with
  | nil => intro _; simp [builtList, List.lookup]
  | cons p rest ih =>
    intro hs
    obtain ⟨k', spec⟩ := p
    have hrest := ih (fun q hq hq1 => hs q (List.mem_cons_of_mem _ hq) hq1)
    simp only [builtList, List.filterMap_cons]
    by_cases hkk : k' = k
    · subst hkk
      obtain ⟨hm, hd⟩ := hs (k', spec) (List.mem_cons_self _ _) rfl
      replace hm : spec.mandatory = false := hm
      replace hd : spec.default = none := hd
      simp only [hm, Bool.false_eq_true, if_false, hk, hd]
      exact hrest
    · have hbk : (k == k') = false := by
        simp only [beq_eq_false_iff_ne, ne_eq]
        exact fun hc => hkk hc.symm
      cases hm : spec.mandatory with
      | false =>
        cases hlk : kwargs.lookup k' with
        | none =>
          cases hd : spec.default with
          | none =>
            simp only [hm, Bool.false_eq_true, if_false, hlk, hd]
            exact hrest
          | some d =>
            cases ht : d.truthy with
            | false =>
              simp only [hm, Bool.false_eq_true, if_false, hlk, hd, ht]
              exact hrest
            | true =>
              simp only [hm, Bool.false_eq_true, if_false, hlk, hd, ht, if_true]
              simp only [List.lookup, hbk]
              exact hrest
        | some v =>
          simp only [hm, Bool.false_eq_true, if_false, hlk]
          simp only [List.lookup, hbk]
          exact hrest
      | true =>
        cases hlk : kwargs.lookup k' with
        | none =>
          cases hd : spec.default with
          | none =>
            simp only [hm, if_true, hlk, hd, Option.map_none']
            exact hrest
          | some d =>
            simp only [hm, if_true, hlk, hd, Option.map_some']
            simp only [List.lookup, hbk]
            exact hrest
        | some v =>
          simp only [hm, if_true, hlk]
          simp only [List.lookup, hbk]
          exact hrest

/-- Helper: the result of `_query` for HTTP 200 responses against the
standard configuration, as a function of the decoded body. -/
theorem query_200_result (d : List (String × Value)) (err : Option Value) :
    (query "components" cfgStd vNull vNull false none "GET" none none
        (fun _ => ⟨200, d, err⟩)).1 =
      match d.lookup "error" with
      | some e => .ok (.ret false e)
      | none => .ok (.ret true ((d.lookup "data").getD vNull)) := rfl

/-! ### Claim theorems -/

/-- C1 counterexample: with authentication configured,
`add_component(name="API", status=1)` issues exactly one request whose
argument set has no `order` key — the claimed body
`{name, status, order: 0, enabled: true}` is impossible because the declared
default `0` for `order` is falsy and is never materialised. -/
theorem add_component_order_omitted_cex :
    ((add_component vNull vNull [("name", vStr "API"), ("status", vInt 1)] cfgStd
        (fun _ => ⟨200, [], none⟩)).2.map (fun r => r.params.lookup "order")) =
      [none] := rfl

/-- C1 (amended): `add_component(name="API", status=1)` with authentication
configured issues exactly one POST to
`https://status.example.com/api/v1/components` whose argument set is
`{name: "API", status: 1, enabled: true}` (`order` is omitted because its
declared default `0` is falsy) and whose headers carry the `X-Cachet-Token`
from configuration. -/
theorem add_component_post_scenario :
    ∀ transport : HttpRequest → HttpResponse,
      (add_component vNull vNull [("name", vStr "API"), ("status", vInt 1)] cfgStd
          transport).2 =
        [⟨"https://status.example.com/api/v1/components", "POST",
          [("name", vStr "API"), ("status", vInt 1), ("enabled", vBool true)], none,
          [("X-Cachet-Token", vStr "tok-secret")]⟩] :=
  fun _ => rfl

/-- C4: component-status validation succeeds exactly on input convertible to
an integer in `[1, 4]` (so 1–4 pass; 0, 5, −1 and non-convertible input
raise); and `add_component(name="API", status=9)` raises the range fault
after argument assembly, with no HTTP request issued, for every
configuration and transport. -/
theorem component_status_range :
    (∀ v : Value, check_component_status v = .ok () ↔
      ∃ n : Int, v.toInt? = some n ∧ 1 ≤ n ∧ n ≤ 4) ∧
    ∀ (cfg : String → Value) (t : HttpRequest → HttpResponse),
      add_component vNull vNull [("name", vStr "API"), ("status", vInt 9)] cfg t =
        (.error (.exception "Wrong component status 9, must be between 1 and 4"), []) := by
  constructor
  · intro v
    unfold check_component_status
    cases h : v.toInt? with
    | none =>
      constructor
      · intro hc; exact Except.noConfusion hc
      · rintro ⟨n, hn, -, -⟩; exact Option.noConfusion hn
    | some n =>
      dsimp only
      by_cases hr : n < 1 ∨ n > 4
      · rw [if_pos hr]
        constructor
        · intro hc; exact Except.noConfusion hc
        · rintro ⟨m, hm, h1, h2⟩
          injection hm with e
          subst e
          rcases hr with hr | hr <;> omega
      · rw [if_neg hr]
        constructor
        · intro _
          push_neg at hr
          exact ⟨n, rfl, by omega, by omega⟩
        · intro _; rfl
  · intro cfg t
    rfl

/-- C5 (code bug): on an HTTP 500 response whose decoded body is
`{"error": "boom"}` (and whose transport envelope has no top-level `error`),
`_query` evaluates the undefined names `_result`/`response` in its error
branch and raises the undefined-name fault instead of returning
`{res: false, message: "boom"}` as documented. -/
theorem query_500_error_branch :
    (query "components" cfgStd vNull vNull false none "GET" none none
        (fun _ => ⟨500, [("error", vStr "boom")], none⟩)).1 =
      .error (.nameError "_result") ∧
    (query "components" cfgStd vNull vNull false none "GET" none none
        (fun _ => ⟨500, [("error", vStr "boom")], none⟩)).1 ≠
      .ok (.ret false (vStr "boom")) := by
  refine ⟨rfl, fun h => ?_⟩
  have h2 : (Except.error (PyError.nameError "_result") : Except PyError RetValue) =
      .ok (.ret false (vStr "boom")) := h
  exact Except.noConfusion h2

/-- C6 counterexample: an HTTP 200 response whose decoded body `{"x": 1}` has
no `data` field yields message `None`, not the whole decoded body. -/
theorem query_200_no_data_cex :
    (query "components" cfgStd vNull vNull false none "GET" none none
        (fun _ => ⟨200, [("x", vInt 1)], none⟩)).1 = .ok (.ret true vNull) ∧
    vNull ≠ vDict [("x", vInt 1)] :=
  ⟨rfl, fun h => Value.noConfusion h⟩

/-- C6 (amended): on HTTP 200 the decoded body's `error` field, when present,
is surfaced as a failure message; otherwise the result is a success whose
message is the body's `data` field, or `None` when no `data` field is
present (not the whole decoded body); in particular `get_components()`
against `{"data": [{"id": 1, "name": "API"}]}` yields
`{res: true, message: [{"id": 1, "name": "API"}]}`. -/
theorem query_200_amended :
    ∀ d : List (String × Value),
      (∀ e, d.lookup "error" = some e →
        (query "components" cfgStd vNull vNull false none "GET" none none
            (fun _ => ⟨200, d, none⟩)).1 = .ok (.ret false e)) ∧
      (d.lookup "error" = none →
        (query "components" cfgStd vNull vNull false none "GET" none none
            (fun _ => ⟨200, d, none⟩)).1 =
          .ok (.ret true ((d.lookup "data").getD vNull))) ∧
      (get_components vNull vNull vNull cfgStd
          (fun _ => ⟨200,
            [("data", vList [vDict [("id", vInt 1), ("name", vStr "API")]])], none⟩)).1 =
        .ok (.ret true (vList [vDict [("id", vInt 1), ("name", vStr "API")]])) := by
  intro d
  refine ⟨?_, ?_, rfl⟩
  · intro e he
    rw [query_200_result d none, he]
  · intro he
    rw [query_200_result d none, he]

/-- C7: every transport response with HTTP status 204 makes `_query` return
the bare `True` — an unconditional success carrying no payload — whatever the
decoded body or envelope contain. -/
theorem query_204_true :
    ∀ (cfg : String → Value) (function method : String)
      (args : Option (List (String × Value))) (d : List (String × Value))
      (err : Option Value),
      (query function cfg (vStr "https://status.example.com") vNull false args method
          none none (fun _ => ⟨204, d, err⟩)).1 = .ok .pyTrue :=
  fun _ _ _ _ _ _ => rfl

/-- C8: with no api_url override and neither configuration key spelling
resolving to a truthy value, `_query` returns the failure result immediately
and the transport collaborator is never invoked (empty request log). -/
theorem query_no_url_no_transport :
    ∀ (cfg : String → Value),
      (cfg "cachet.api_url").truthy = false →
      (cfg "cachet:api_url").truthy = false →
      ∀ (function method : String) (api_token : Value) (auth : Bool)
        (args : Option (List (String × Value)))
        (hd : Option (List (String × Value))) (data : Option Value)
        (t : HttpRequest → HttpResponse),
        query function cfg vNull api_token auth args method hd data t =
          (.ok (.ret false (vStr "No Cachet api key found.")), []) := by
  intro cfg h1 h2 function method api_token auth args hd data t
  unfold query
  simp [pyOr, show Value.truthy vNull = false from rfl, h1, h2]

/-- Witness for C8: the empty configuration with no override fails without a
transport call. -/
theorem query_no_url_no_transport_witness :
    query "ping" (fun _ => vNull) vNull vNull false none "GET" none none
        (fun _ => ⟨200, [], none⟩) =
      (.ok (.ret false (vStr "No Cachet api key found.")), []) :=
  query_no_url_no_transport (fun _ => vNull) rfl rfl "ping" "GET" vNull false none none
    none (fun _ => ⟨200, [], none⟩)

/-- C10: for every metric_id, id, api_url and api_token (and any
configuration and transport), `delete_metric_point` raises the
undefined-name error for `args` when evaluating its `_query` call, so the
DELETE request is never issued. -/
theorem delete_metric_point_name_error :
    ∀ (metric_id id : Int) (api_url api_token : Value) (cfg : String → Value)
      (t : HttpRequest → HttpResponse),
      delete_metric_point metric_id id api_url api_token cfg t =
        (.error (.nameError "args"), []) :=
  fun _ _ _ _ _ _ => rfl

/-- C2: for every (resource, operation) pair with a declared schema,
supplying exactly the mandatory fields (with any values) and no optional
fields succeeds, and the Argument Set is exactly the mandatory fields plus
the optional fields whose declared default is truthy — fields with no
default or a falsy default are omitted entirely. -/
theorem build_args_mandatory_exact :
    ∀ obj ms, (obj, ms) ∈ CACHET_PARAMS_DEFINITION →
      ∀ m schema, (m, schema) ∈ ms →
        ∀ f : String → Value,
          buildArgs obj m ((mandatoryFields schema).map (fun k => (k, f k))) =
            .ok (.success (specExpectedArgs schema f)) := by
  intro obj ms h1
  fin_cases h1 <;>
    · intro m schema h2
      fin_cases h2 <;>
        · intro f
          rfl

/-- Witness for C2 at (components, add) with every mandatory field set to 7. -/
theorem build_args_mandatory_exact_witness :
    buildArgs "components" "add" [("name", vInt 7), ("status", vInt 7)] =
      .ok (.success [("name", vInt 7), ("status", vInt 7), ("enabled", vBool true)]) :=
  build_args_mandatory_exact "components" _ (List.mem_cons_self _ _) "add" _
    (List.mem_cons_self _ _) (fun _ => vInt 7)

/-- C3: for every (resource, operation) pair with a declared schema: if some
mandatory field with no declared default is absent, `_build_args` returns the
`{res: false}` failure naming the first such field in schema order (it
short-circuits there); if none is missing it succeeds with the closed-form
argument set, in which every absent mandatory field with a declared default
receives that default. -/
theorem build_args_missing_mandatory :
    ∀ (obj m : String) (schema : Schema), schemaFor obj m = some schema →
      ∀ kwargs : List (String × Value),
        (∀ k, firstMissingMandatory schema kwargs = some k →
          buildArgs obj m kwargs =
            .ok (.failure ("Mandatory params " ++ k ++ " is missing"))) ∧
        (firstMissingMandatory schema kwargs = none →
          buildArgs obj m kwargs = .ok (.success (builtList schema kwargs)) ∧
          ∀ k spec d, (k, spec) ∈ schema → spec.mandatory = true →
            kwargs.lookup k = none → spec.default = some d →
            (k, d) ∈ builtList schema kwargs) := by
  intro obj m schema h kwargs
  constructor
  · intro k hk
    rw [buildArgs_schemaFor h kwargs, buildFields_first_missing schema kwargs k hk []]
  · intro hnone
    constructor
    · rw [buildArgs_schemaFor h kwargs, buildFields_no_missing schema kwargs hnone []]
      simp
    · intro k spec d hmem hman hlk hd
      refine List.mem_filterMap.mpr ⟨(k, spec), hmem, ?_⟩
      dsimp only
      replace hman : spec.mandatory = true := hman
      replace hd : spec.default = some d := hd
      simp only [hman, if_true, hlk, hd, Option.map_some']

/-- Witness for C3: `components/add` with only `name` supplied fails naming
`status`, the first missing mandatory field. -/
theorem build_args_missing_mandatory_witness :
    buildArgs "components" "add" [("name", vStr "x")] =
      .ok (.failure "Mandatory params status is missing") :=
  (build_args_missing_mandatory "components" "add" _ rfl [("name", vStr "x")]).1
    "status" rfl

/-- C9: whenever the keyword arguments carry no `status`, the built argument
set contains no `status` key and both `update_component` and
`update_incident` fail with the `KeyError` on `args['status']` before any
HTTP request is issued (empty request log). -/
theorem update_without_status_keyerror :
    ∀ (id : Int) (api_url api_token : Value) (kwargs : List (String × Value))
      (cfg : String → Value) (t : HttpRequest → HttpResponse),
      kwargs.lookup "status" = none →
      update_component id api_url api_token kwargs cfg t =
        (.error (.keyError "status"), []) ∧
      update_incident id api_url api_token kwargs cfg t =
        (.error (.keyError "status"), []) := by
  intro id u tok kwargs cfg t hst
  constructor
  · have hb := @buildArgs_schemaFor "components" "update"
      [("name", ⟨false, none⟩), ("status", ⟨false, none⟩), ("link", ⟨false, some vNull⟩),
       ("order", ⟨false, some vNull⟩), ("group_id", ⟨false, some vNull⟩)] rfl kwargs
    have hf := buildFields_no_missing
      [("name", ⟨false, none⟩), ("status", ⟨false, none⟩), ("link", ⟨false, some vNull⟩),
       ("order", ⟨false, some vNull⟩), ("group_id", ⟨false, some vNull⟩)] kwargs rfl []
    have hl := lookup_builtList_none
      [("name", ⟨false, none⟩), ("status", ⟨false, none⟩), ("link", ⟨false, some vNull⟩),
       ("order", ⟨false, some vNull⟩), ("group_id", ⟨false, some vNull⟩)] "status" kwargs
      hst (by
        intro p hp h1
        simp only [List.mem_cons, List.not_mem_nil, or_false] at hp
        rcases hp with rfl | rfl | rfl | rfl | rfl <;>
          first
            | exact ⟨rfl, rfl⟩
            | exact absurd h1 (by decide))
    unfold update_component
    rw [hb, hf]
    simp only [List.nil_append]
    rw [hl]
  · have hb := @buildArgs_schemaFor "incidents" "update"
      [("name", ⟨false, none⟩), ("message", ⟨false, none⟩), ("status", ⟨false, none⟩),
       ("visible", ⟨false, some (vInt 1)⟩), ("component_id", ⟨false, none⟩),
       ("notify", ⟨false, none⟩)] rfl kwargs
    have hf := buildFields_no_missing
      [("name", ⟨false, none⟩), ("message", ⟨false, none⟩), ("status", ⟨false, none⟩),
       ("visible", ⟨false, some (vInt 1)⟩), ("component_id", ⟨false, none⟩),
       ("notify", ⟨false, none⟩)] kwargs rfl []
    have hl := lookup_builtList_none
      [("name", ⟨false, none⟩), ("message", ⟨false, none⟩), ("status", ⟨false, none⟩),
       ("visible", ⟨false, some (vInt 1)⟩), ("component_id", ⟨false, none⟩),
       ("notify", ⟨false, none⟩)] "status" kwargs
      hst (by
        intro p hp h1
        simp only [List.mem_cons, List.not_mem_nil, or_false] at hp
        rcases hp with rfl | rfl | rfl | rfl | rfl | rfl <;>
          first
            | exact ⟨rfl, rfl⟩
            | exact absurd h1 (by decide))
    unfold update_incident
    rw [hb, hf]
    simp only [List.nil_append]
    rw [hl]

/-- Witness for C9: updating component 1 or incident 1 with only a new name
crashes with the `status` key error and performs no HTTP call. -/
theorem update_without_status_keyerror_witness :
    update_component 1 vNull vNull [("name", vStr "toto")] (fun _ => vNull)
        (fun _ => ⟨200, [], none⟩) = (.error (.keyError "status"), []) ∧
    update_incident 1 vNull vNull [("name", vStr "toto")] (fun _ => vNull)
        (fun _ => ⟨200, [], none⟩) = (.error (.keyError "status"), []) :=
  update_without_status_keyerror 1 vNull vNull [("name", vStr "toto")] (fun _ => vNull)
    (fun _ => ⟨200, [], none⟩) rfl

/-- Witness for C6: a 200 body whose `error` field is `"bad"` is surfaced as
a failure with that message. -/
theorem query_200_amended_witness :
    (query "components" cfgStd vNull vNull false none "GET" none none
        (fun _ => ⟨200, [("error", vStr "bad")], none⟩)).1 =
      .ok (.ret false (vStr "bad")) :=
  (query_200_amended [("error", vStr "bad")]).1 (vStr "bad") rfl
